import Mathlib

/-!
Verification of `blender_hitfilm_importer.py` (HitFilm AR `.hfcs` composite
importer for Blender).

Shallow embedding conventions:

* Python floats are modelled as exact rationals (`ℚ`); the arithmetic of the
  importer is plain field arithmetic, so `ℚ` reproduces it exactly up to
  floating-point rounding, which no claim is about.
* `math.pi`, `math.cos`, `math.sin` (used by `math.radians` and by
  `mathutils.Euler.to_matrix`) are abstracted as an explicit `TrigOps`
  parameter: no claim depends on a trigonometric identity, only on how the
  rotation matrices are composed.
* The XML document is modelled post-parse: the structures below hold exactly
  the data the importer reads from the element tree.  The claims under
  verification all presuppose a well-formed settings block, so `Document`
  carries parsed `width`/`height`/`frameRate` directly.
* Host (bpy) side effects are modelled as explicit state: `SceneState` holds
  the scene fields the script mutates and the objects it creates.  A Python
  exception (failed `assert`, list `IndexError`) aborts the import; we model
  the raised error with `Except` (partial host mutations at the moment the
  exception propagates are not observable in any claim, only the error is).
-/

/-- `math.pi`, `math.cos`, `math.sin` as abstract operations on `ℚ`. -/
structure TrigOps where
  pi : ℚ
  cos : ℚ → ℚ
  sin : ℚ → ℚ

/-- `math.radians(d) = d * pi / 180`. -/
def radians (T : TrigOps) (d : ℚ) : ℚ := d * T.pi / 180

/-- Source line 41: `PixelsPerMM = 2.8352`. -/
def PixelsPerMM : ℚ := 2.8352

/-- Source lines 43-47: `zoomToLens(lensZoomInPixels, compWidthInPixels)`. -/
def zoomToLens (lensZoomInPixels compWidthInPixels : ℚ) : ℚ :=
  let lensZoomInMM := lensZoomInPixels / PixelsPerMM
  let compWidthInMM := compWidthInPixels / PixelsPerMM
  (36.0 * lensZoomInMM) / compWidthInMM

/-- A 3-component vector of (exact) floats. -/
structure Vec3 where
  x : ℚ
  y : ℚ
  z : ℚ
deriving DecidableEq, Repr

/-- 4x4 transform matrices, as used via `mathutils.Matrix`. -/
abbrev Mat4 := Matrix (Fin 4) (Fin 4) ℚ

/-- Source line 117: `blenderScale = (1.0 / 1000.0) * PixelsPerMM`. -/
def blenderScale : ℚ := (1.0 / 1000.0) * PixelsPerMM

/-- Source lines 142/161: `tuple([blenderScale * elem for elem in location])`. -/
def scaleVec (v : Vec3) : Vec3 :=
  ⟨blenderScale * v.x, blenderScale * v.y, blenderScale * v.z⟩

/-- Source line 145: `mathutils.Matrix().Translation(location)`. -/
def translation4 (v : Vec3) : Mat4 :=
  !![1, 0, 0, v.x; 0, 1, 0, v.y; 0, 0, 1, v.z; 0, 0, 0, 1]

/-- Rotation about the X axis by angle `a`, as a 4x4 matrix. -/
def rotX4 (T : TrigOps) (a : ℚ) : Mat4 :=
  !![1, 0, 0, 0; 0, T.cos a, -(T.sin a), 0; 0, T.sin a, T.cos a, 0; 0, 0, 0, 1]

/-- Rotation about the Y axis by angle `a`, as a 4x4 matrix. -/
def rotY4 (T : TrigOps) (a : ℚ) : Mat4 :=
  !![T.cos a, 0, T.sin a, 0; 0, 1, 0, 0; -(T.sin a), 0, T.cos a, 0; 0, 0, 0, 1]

/-- Rotation about the Z axis by angle `a`, as a 4x4 matrix. -/
def rotZ4 (T : TrigOps) (a : ℚ) : Mat4 :=
  !![T.cos a, -(T.sin a), 0, 0; T.sin a, T.cos a, 0, 0; 0, 0, 1, 0; 0, 0, 0, 1]

/-- `mathutils.Euler((x, y, z), "ZYX").to_matrix().to_4x4()`: Blender's
rotation order `"ZYX"` applies the Z rotation first, then Y, then X, so on
column vectors the matrix is `Rx * Ry * Rz`. -/
def eulerZYX4 (T : TrigOps) (x y z : ℚ) : Mat4 :=
  rotX4 T x * rotY4 T y * rotZ4 T z

/-- Source line 120: the value of
`axis_conversion(from_forward='Z', from_up='Y', to_forward='-Y', to_up='Z').to_4x4()`
from `bpy_extras.io_utils` (an external Blender library): the Y-up-to-Z-up
change of basis sending `e_x ↦ e_x`, `e_y ↦ e_z` (up to up) and
`e_z ↦ -e_y` (forward to forward). -/
def mToZUp : Mat4 :=
  !![1, 0, 0, 0; 0, 0, -1, 0; 0, 1, 0, 0; 0, 0, 0, 1]

/-- Source lines 136-148: the per-frame camera world transform.
`eul = Euler(tuple([-radians(e) for e in rot]), "ZYX")`;
`mat = Translation(blenderScale * pos) @ eul.to_matrix().to_4x4()`;
`matrix_world = mToZUp @ mat`. -/
def cameraWorld (T : TrigOps) (pos rot : Vec3) : Mat4 :=
  mToZUp *
    (translation4 (scaleVec pos) *
      eulerZYX4 T (-(radians T rot.x)) (-(radians T rot.y)) (-(radians T rot.z)))

/-! ### The parsed document -/

/-- One keyframe element of a `position/Animation` node: a `Time` attribute
and a nested `FXPoint3_32f` point (source lines 90-93). -/
structure PosKey where
  time : String
  point : Vec3
deriving DecidableEq, Repr

/-- One keyframe element of an `orientation/Animation` node: it carries a
`Time` attribute (never read by the importer) and a nested `Orientation3D`
euler triple in degrees (source lines 100-102). -/
structure RotKey where
  time : String
  euler : Vec3
deriving DecidableEq, Repr

/-- One keyframe element of a `zoom/Animation` node: a `Time` attribute
(never read by the importer) and a nested `Value/float` (source lines
109-111). -/
structure ZoomKey where
  time : String
  value : ℚ
deriving DecidableEq, Repr

/-- The camera layer's three optional animation channels: `none` models a
document in which `findall(".//*<channel>/Animation")` is empty (the
`len(...) > 0` guards at source lines 87, 96, 105). -/
structure CameraLayer where
  posAnim : Option (List PosKey)
  rotAnim : Option (List RotKey)
  zoomAnim : Option (List ZoomKey)
deriving DecidableEq, Repr

/-- A `PointLayer` element: a `Name` element and a static
`position/Default/p3` point (source lines 157-159). -/
structure PointLayer where
  name : String
  position : Vec3
deriving DecidableEq, Repr

/-- The parsed composite document, holding exactly what
`import_hitfilm_composite` reads: the `AudioVideoSettings` integers, the
first `CameraLayer` (or `none` when `root.find(".//*CameraLayer")` yields
nothing), and every `PointLayer`. -/
structure Document where
  width : Int
  height : Int
  frameRate : Int
  camera : Option CameraLayer
  points : List PointLayer
deriving DecidableEq, Repr

/-! ### Host scene state -/

/-- A `keyframe_insert("lens", frame=i)` record (source line 133). -/
structure LensKey where
  frame : Nat
  lens : ℚ
deriving DecidableEq, Repr

/-- A `keyframe_insert_menu(type='BUILTIN_KSI_LocRot')` record at the current
frame (source lines 129 and 150). -/
structure LocRotKey where
  frame : Nat
  world : Mat4
deriving DecidableEq, Repr

/-- The camera object created at source lines 123-126 together with the
keyframes inserted on it. -/
structure CameraObject where
  name : String
  display_size : ℚ
  lens : ℚ
  world : Mat4
  lensKeys : List LensKey
  locRotKeys : List LocRotKey
deriving DecidableEq, Repr

/-- An empty created for an anchor point (source lines 162-167). -/
structure AnchorObject where
  name : String
  world : Mat4
  empty_display_size : ℚ
deriving DecidableEq, Repr

/-- The scene fields mutated by the importer plus the objects it creates. -/
structure SceneState where
  resolution_x : Int
  resolution_y : Int
  fps : Int
  frame_end : Int
  frame_current : Int
  camera : Option CameraObject
  anchors : List AnchorObject
deriving DecidableEq, Repr

/-- A Python exception escaping the importer: a failed `assert` (lines 99,
108) or an out-of-range list subscript (lines 132, 136, 141). -/
inductive PyError where
  | assertionError
  | indexError
deriving DecidableEq, Repr

/-- The two values of the returned status set: `{'FINISHED'}` and
`{'CANCELLED'}`. -/
inductive Status where
  | finished
  | cancelled
deriving DecidableEq, Repr

/-! ### Channel extraction (source lines 81-111) -/

/-- Source lines 86-93: `timeKeys` is filled only from the position channel
(`timeKeys.append(key.get('Time'))`); rotation and zoom keyframes contribute
nothing to it. -/
def extractTimeKeys (cam : CameraLayer) : List String :=
  match cam.posAnim with
  | none => []
  | some ks => ks.map PosKey.time

/-- Source lines 86-93: `camPositions`, one `(X, Y, Z)` triple per position
keyframe. -/
def extractPositions (cam : CameraLayer) : List Vec3 :=
  match cam.posAnim with
  | none => []
  | some ks => ks.map PosKey.point

/-- Source lines 95-102: `camRotations`.  When the rotation channel is
present, `assert len(timeKeys) == len(rotationKeys)` runs BEFORE any value is
appended: a length differing from the position-derived `timeKeys` raises
`AssertionError`.  An absent channel is skipped entirely (empty result, no
check). -/
def extractRotations (cam : CameraLayer) : Except PyError (List Vec3) :=
  match cam.rotAnim with
  | none => .ok []
  | some ks =>
      if (extractTimeKeys cam).length = ks.length then .ok (ks.map RotKey.euler)
      else .error .assertionError

/-- Source lines 104-111: `camZoomVals`, with the same
`assert len(timeKeys) == len(zoomKeys)` against the position-derived
`timeKeys`. -/
def extractZooms (cam : CameraLayer) : Except PyError (List ℚ) :=
  match cam.zoomAnim with
  | none => .ok []
  | some ks =>
      if (extractTimeKeys cam).length = ks.length then .ok (ks.map ZoomKey.value)
      else .error .assertionError

/-! ### The per-frame loop (source lines 128-150) -/

/-- Source line 123-126: `camera_add` then `display_size = 0.2`,
`name = "ARCamera"`.  Lens 50 and identity world transform are the Blender
defaults of a fresh camera object; no claim depends on them. -/
def initCamera : CameraObject :=
  { name := "ARCamera", display_size := 0.2, lens := 50, world := 1,
    lensKeys := [], locRotKeys := [] }

/-- One iteration of the loop body (source lines 129-150) at frame `i`.  All
three channel lists are subscripted unconditionally, in source order: first
`camZoomVals[i]` (line 132), then `camRotations[i]` (line 136), then
`camPositions[i]` (line 141); a subscript past the end raises `IndexError`.
The `LocRot` keyframe is recorded at the current frame set by
`frame_set(i)`. -/
def frameStep (T : TrigOps) (width : Int) (zs : List ℚ) (rs ps : List Vec3)
    (i : Nat) (c : CameraObject) : Except PyError CameraObject :=
  match zs[i]? with
  | none => .error .indexError
  | some z =>
      let lens := zoomToLens z (width : ℚ)
      let c := { c with lens := lens,
                        lensKeys := c.lensKeys ++ [({ frame := i, lens := lens } : LensKey)] }
      match rs[i]? with
      | none => .error .indexError
      | some r =>
          match ps[i]? with
          | none => .error .indexError
          | some p =>
              let w := cameraWorld T p r
              .ok { c with world := w,
                           locRotKeys := c.locRotKeys ++ [({ frame := i, world := w } : LocRotKey)] }

/-- The loop `for i in range(len(timeKeys))` unrolled from index `i` with
`k` iterations remaining. -/
def runFramesFrom (T : TrigOps) (width : Int) (zs : List ℚ) (rs ps : List Vec3) :
    Nat → Nat → CameraObject → Except PyError CameraObject
  | _, 0, c => .ok c
  | i, k + 1, c =>
      match frameStep T width zs rs ps i c with
      | .error e => .error e
      | .ok c' => runFramesFrom T width zs rs ps (i + 1) k c'

/-- Source lines 128-150: the whole per-frame loop, `n = len(timeKeys)`. -/
def runFrames (T : TrigOps) (width : Int) (zs : List ℚ) (rs ps : List Vec3)
    (n : Nat) (c : CameraObject) : Except PyError CameraObject :=
  runFramesFrom T width zs rs ps 0 n c

/-! ### Anchor import (source lines 155-167) -/

/-- Source lines 156-167, one `PointLayer`: the empty is created at the
scaled location (world `Translation(blenderScale * p)`, identity rotation),
then `matrix_world = mToZUp @ matrix_world`, then
`rotation_euler.x -= radians(90)`.  After the matrix assignment the object's
XYZ euler is `(radians 90, 0, 0)`; since X is the innermost axis of Blender's
XYZ euler order, decrementing `rotation_euler.x` post-multiplies the world
transform by a local-X rotation of `-radians(90)`. -/
def mkAnchor (T : TrigOps) (p : PointLayer) : AnchorObject :=
  { name := p.name,
    world := mToZUp * translation4 (scaleVec p.position) * rotX4 T (-(radians T 90)),
    empty_display_size := 0.1 }

/-- Source lines 155-167: every `PointLayer` becomes one anchor empty, in
document order. -/
def importAnchors (T : TrigOps) (ps : List PointLayer) : List AnchorObject :=
  ps.map (mkAnchor T)

/-! ### The importer (source lines 57-169) -/

/-- Source lines 66-72: write `Width`/`Height`/`FrameRate` into
`C.scene.render` before anything else. -/
def applySettings (doc : Document) (s : SceneState) : SceneState :=
  { s with resolution_x := doc.width, resolution_y := doc.height,
           fps := doc.frameRate }

/-- Source lines 57-169: `import_hitfilm_composite`, as a function from the
parsed document and the initial scene state to either a raised Python
exception or a `({'FINISHED'} | {'CANCELLED'})` status and the final scene
state.  Mirrors the source order: settings (66-72), camera-presence check
with early `{'CANCELLED'}` return (74-77), channel extraction (81-111),
`frame_end = len(timeKeys)` (114), camera creation (123-126), per-frame loop
(128-150), `frame_set(0)` (152), anchors (155-167), `{'FINISHED'}` (169). -/
def import_hitfilm_composite (T : TrigOps) (doc : Document) (s0 : SceneState) :
    Except PyError (Status × SceneState) :=
  let s1 := applySettings doc s0
  match doc.camera with
  | none => .ok (.cancelled, s1)
  | some cam =>
      let timeKeys := extractTimeKeys cam
      let camPositions := extractPositions cam
      match extractRotations cam with
      | .error e => .error e
      | .ok camRotations =>
          match extractZooms cam with
          | .error e => .error e
          | .ok camZoomVals =>
              let s2 := { s1 with frame_end := (timeKeys.length : Int) }
              match runFrames T doc.width camZoomVals camRotations camPositions
                  timeKeys.length initCamera with
              | .error e => .error e
              | .ok camFinal =>
                  .ok (.finished,
                    { s2 with frame_current := 0, camera := some camFinal,
                              anchors := s2.anchors ++ importAnchors T doc.points })

/-! ### Spec-side pipeline (for the refinement comparison of claim C5)

The following definitions are written from the specification's own wording of
the Coordinate Transformer steps, to be compared with `cameraWorld`, which is
the embedding of the source lines 136-148. -/

/-- Spec step 1: scale position by `(1/1000) * PixelsPerMM`. -/
def specScalePosition (v : Vec3) : Vec3 :=
  ⟨(1 / 1000) * PixelsPerMM * v.x, (1 / 1000) * PixelsPerMM * v.y,
    (1 / 1000) * PixelsPerMM * v.z⟩

/-- Spec step 2: negate each rotation component, convert degrees to radians,
and build the rotation matrix with axis order Z, then Y, then X. -/
def specRotationMatrix (T : TrigOps) (rot : Vec3) : Mat4 :=
  eulerZYX4 T (radians T (-rot.x)) (radians T (-rot.y)) (radians T (-rot.z))

/-- The spec's fixed basis-change transform: source forward = Z and up = Y
map to target forward = -Y and up = Z; with a right-handed `e_x ↦ e_x` this
is the matrix sending `e_y ↦ e_z` and `e_z ↦ -e_y`. -/
def specBasisChange : Mat4 :=
  !![1, 0, 0, 0; 0, 0, -1, 0; 0, 1, 0, 0; 0, 0, 0, 1]

/-- Spec steps 3 and 4: compose translation ∘ rotation, then pre-multiply by
the basis-change transform. -/
def specCameraTransform (T : TrigOps) (pos rot : Vec3) : Mat4 :=
  specBasisChange * (translation4 (specScalePosition pos) * specRotationMatrix T rot)

/-! ### Noninterference relation for claim C10 -/

/-- Two optional camera layers that agree on everything except the `Time`
attribute strings of their keyframe elements: both absent, or both present
with identical position points, identical rotation eulers and identical zoom
values, channel presence included. -/
def camerasUpToTimes : Option CameraLayer → Option CameraLayer → Prop
  | none, none => True
  | some c₁, some c₂ =>
      c₁.posAnim.map (List.map PosKey.point) = c₂.posAnim.map (List.map PosKey.point) ∧
      c₁.rotAnim.map (List.map RotKey.euler) = c₂.rotAnim.map (List.map RotKey.euler) ∧
      c₁.zoomAnim.map (List.map ZoomKey.value) = c₂.zoomAnim.map (List.map ZoomKey.value)
  | _, _ => False

/-- Two documents that differ at most in the `Time` attribute values of their
keyframe elements. -/
def TimesOnlyDiffer (d₁ d₂ : Document) : Prop :=
  d₁.width = d₂.width ∧ d₁.height = d₂.height ∧ d₁.frameRate = d₂.frameRate ∧
  d₁.points = d₂.points ∧ camerasUpToTimes d₁.camera d₂.camera

/-! ### Concrete fixtures for counterexamples and witnesses -/

/-- A trigonometry instantiation for concrete evaluations; the importer's
control flow never depends on the trigonometric values. -/
def T0 : TrigOps := { pi := 0, cos := fun _ => 1, sin := fun _ => 0 }

/-- A fresh scene before the import runs. -/
def emptyScene : SceneState :=
  { resolution_x := 0, resolution_y := 0, fps := 0, frame_end := 250,
    frame_current := 1, camera := none, anchors := [] }

/-- A document with the given camera layer, 1920x1080 at 30 fps, no point
layers. -/
def mkDoc (c : CameraLayer) : Document :=
  { width := 1920, height := 1080, frameRate := 30, camera := some c,
    points := [] }

/-- A document with zero `CameraLayer` elements and two `PointLayer`
elements. -/
def docNoCameraTwoPoints : Document :=
  { width := 1920, height := 1080, frameRate := 30, camera := none,
    points := [⟨"Anchor1", ⟨0, 0, 0⟩⟩, ⟨"Anchor2", ⟨1000, 0, 0⟩⟩] }

/-- A camera layer whose position channel is absent while the rotation
channel holds one keyframe. -/
def camPosAbsentRotPresent : CameraLayer :=
  { posAnim := none, rotAnim := some [⟨"0", ⟨0, 0, 0⟩⟩], zoomAnim := none }

/-- A camera layer with one position keyframe, one rotation keyframe and an
absent zoom channel. -/
def camZoomAbsent : CameraLayer :=
  { posAnim := some [⟨"0", ⟨1, 2, 3⟩⟩], rotAnim := some [⟨"0", ⟨0, 0, 0⟩⟩],
    zoomAnim := none }

/-- A camera layer whose only non-empty channel is zoom (one keyframe). -/
def camOnlyZoom : CameraLayer :=
  { posAnim := none, rotAnim := none, zoomAnim := some [⟨"0", 100⟩] }

/-- Five position keyframes. -/
def pks5 : List PosKey := List.range 5 |>.map fun i => ⟨toString i, ⟨i, 0, 0⟩⟩

/-- Five rotation keyframes. -/
def rks5 : List RotKey := List.range 5 |>.map fun i => ⟨toString i, ⟨0, i, 0⟩⟩

/-- Four zoom keyframes. -/
def zks4 : List ZoomKey := List.range 4 |>.map fun i => ⟨toString i, 100 + i⟩

/-- Position/rotation/zoom channels of lengths 5, 5 and 4. -/
def cam554 : CameraLayer :=
  { posAnim := some pks5, rotAnim := some rks5, zoomAnim := some zks4 }

/-- Two position keyframes. -/
def pks2 : List PosKey := [⟨"0", ⟨1, 2, 3⟩⟩, ⟨"1", ⟨4, 5, 6⟩⟩]

/-- Two rotation keyframes. -/
def rks2 : List RotKey := [⟨"0", ⟨10, 20, 30⟩⟩, ⟨"1", ⟨40, 50, 60⟩⟩]

/-- Two zoom keyframes. -/
def zks2 : List ZoomKey := [⟨"0", 100⟩, ⟨"1", 200⟩]

/-- Channels of length 2 each, for concrete witness runs. -/
def cam222 : CameraLayer :=
  { posAnim := some pks2, rotAnim := some rks2, zoomAnim := some zks2 }

/-- The same channels as `cam222` with every `Time` attribute replaced. -/
def cam222retimed : CameraLayer :=
  { posAnim := some [⟨"7", ⟨1, 2, 3⟩⟩, ⟨"8", ⟨4, 5, 6⟩⟩],
    rotAnim := some [⟨"9", ⟨10, 20, 30⟩⟩, ⟨"x", ⟨40, 50, 60⟩⟩],
    zoomAnim := some [⟨"y", 100⟩, ⟨"z", 200⟩] }

/-! ### Helper lemmas -/

/-- `math.radians` is odd: negating before or after the conversion agrees. -/
theorem radians_neg (T : TrigOps) (d : ℚ) : radians T (-d) = -(radians T d) := by
  unfold radians; ring

/-- The spec's position scaling and the source's `blenderScale` multiplication
agree componentwise. -/
theorem specScalePosition_eq_scaleVec (v : Vec3) : specScalePosition v = scaleVec v := by
  cases v with
  | mk x y z =>
      simp only [specScalePosition, scaleVec, blenderScale, Vec3.mk.injEq]
      norm_num

/-- The spec's basis-change matrix is the source's `mToZUp`. -/
theorem specBasisChange_eq_mToZUp : specBasisChange = mToZUp := rfl

/-- Evaluating `zoomToLens` away from its internal `PixelsPerMM` scaling:
the two divisions by the same nonzero constant cancel. -/
theorem zoomToLens_eq_div (z w : ℚ) : zoomToLens z w = 36 * z / w := by
  unfold zoomToLens PixelsPerMM
  rcases eq_or_ne w 0 with h | h
  · subst h; simp
  · field_simp
    left
    norm_num

/-- When all three channel lists reach past every index the loop will visit,
the loop completes and appends exactly one lens keyframe and one location /
rotation keyframe per iteration. -/
theorem runFramesFrom_ok (T : TrigOps) (width : Int) (zs : List ℚ) (rs ps : List Vec3) :
    ∀ (k i : Nat) (c : CameraObject), i + k ≤ zs.length → i + k ≤ rs.length →
      i + k ≤ ps.length →
      ∃ c', runFramesFrom T width zs rs ps i k c = .ok c' ∧
        c'.lensKeys.length = c.lensKeys.length + k ∧
        c'.locRotKeys.length = c.locRotKeys.length + k := by
  intro k
  induction k with
  | zero =>
      intro i c _ _ _
      exact ⟨c, rfl, by simp, by simp⟩
  | succ k ih =>
      intro i c hz hr hp
      have hzi : i < zs.length := by omega
      have hri : i < rs.length := by omega
      have hpi : i < ps.length := by omega
      have hstep : frameStep T width zs rs ps i c =
          .ok { c with
                lens := zoomToLens zs[i] (width : ℚ),
                lensKeys := c.lensKeys ++ [⟨i, zoomToLens zs[i] (width : ℚ)⟩],
                world := cameraWorld T ps[i] rs[i],
                locRotKeys := c.locRotKeys ++ [⟨i, cameraWorld T ps[i] rs[i]⟩] } := by
        simp only [frameStep, List.getElem?_eq_getElem hzi, List.getElem?_eq_getElem hri,
          List.getElem?_eq_getElem hpi]
      obtain ⟨c', hc', hl, hk⟩ := ih (i + 1)
        ({ c with
            lens := zoomToLens zs[i] (width : ℚ),
            lensKeys := c.lensKeys ++ [⟨i, zoomToLens zs[i] (width : ℚ)⟩],
            world := cameraWorld T ps[i] rs[i],
            locRotKeys := c.locRotKeys ++ [⟨i, cameraWorld T ps[i] rs[i]⟩] })
        (by omega) (by omega) (by omega)
      refine ⟨c', ?_, ?_, ?_⟩
      · simp only [runFramesFrom, hstep, hc']
      · simp only [hl, List.length_append, List.length_singleton]
        omega
      · simp only [hk, List.length_append, List.length_singleton]
        omega

/-- `extractPositions` only reads the position points, never the `Time`
attributes. -/
theorem extractPositions_congr (c₁ c₂ : CameraLayer)
    (h : c₁.posAnim.map (List.map PosKey.point) = c₂.posAnim.map (List.map PosKey.point)) :
    extractPositions c₁ = extractPositions c₂ := by
  unfold extractPositions
  cases h₁ : c₁.posAnim with
  | none => cases h₂ : c₂.posAnim with
    | none => rfl
    | some ks => rw [h₁, h₂] at h; simp at h
  | some ks => cases h₂ : c₂.posAnim with
    | none => rw [h₁, h₂] at h; simp at h
    | some ks' => rw [h₁, h₂] at h; simpa using h

/-- The number of collected time keys equals the number of position
keyframes, so documents with equal position points agree on it. -/
theorem extractTimeKeys_length_congr (c₁ c₂ : CameraLayer)
    (h : c₁.posAnim.map (List.map PosKey.point) = c₂.posAnim.map (List.map PosKey.point)) :
    (extractTimeKeys c₁).length = (extractTimeKeys c₂).length := by
  unfold extractTimeKeys
  cases h₁ : c₁.posAnim with
  | none => cases h₂ : c₂.posAnim with
    | none => rfl
    | some ks => rw [h₁, h₂] at h; simp at h
  | some ks => cases h₂ : c₂.posAnim with
    | none => rw [h₁, h₂] at h; simp at h
    | some ks' =>
        rw [h₁, h₂] at h
        simp only [Option.map_some', Option.some.injEq] at h
        have := congrArg List.length h
        simpa using this

/-- `extractRotations` depends only on the rotation eulers and the number of
time keys. -/
theorem extractRotations_congr (c₁ c₂ : CameraLayer)
    (hpos : c₁.posAnim.map (List.map PosKey.point) = c₂.posAnim.map (List.map PosKey.point))
    (hrot : c₁.rotAnim.map (List.map RotKey.euler) = c₂.rotAnim.map (List.map RotKey.euler)) :
    extractRotations c₁ = extractRotations c₂ := by
  have hn := extractTimeKeys_length_congr c₁ c₂ hpos
  unfold extractRotations
  cases h₁ : c₁.rotAnim with
  | none => cases h₂ : c₂.rotAnim with
    | none => rfl
    | some ks => rw [h₁, h₂] at hrot; simp at hrot
  | some ks => cases h₂ : c₂.rotAnim with
    | none => rw [h₁, h₂] at hrot; simp at hrot
    | some ks' =>
        rw [h₁, h₂] at hrot
        simp only [Option.map_some', Option.some.injEq] at hrot
        have hlen : ks.length = ks'.length := by
          have := congrArg List.length hrot
          simpa using this
        rw [hn]
        simp only [hlen, hrot]

/-- `extractZooms` depends only on the zoom values and the number of time
keys. -/
theorem extractZooms_congr (c₁ c₂ : CameraLayer)
    (hpos : c₁.posAnim.map (List.map PosKey.point) = c₂.posAnim.map (List.map PosKey.point))
    (hzoom : c₁.zoomAnim.map (List.map ZoomKey.value) = c₂.zoomAnim.map (List.map ZoomKey.value)) :
    extractZooms c₁ = extractZooms c₂ := by
  have hn := extractTimeKeys_length_congr c₁ c₂ hpos
  unfold extractZooms
  cases h₁ : c₁.zoomAnim with
  | none => cases h₂ : c₂.zoomAnim with
    | none => rfl
    | some ks => rw [h₁, h₂] at hzoom; simp at hzoom
  | some ks => cases h₂ : c₂.zoomAnim with
    | none => rw [h₁, h₂] at hzoom; simp at hzoom
    | some ks' =>
        rw [h₁, h₂] at hzoom
        simp only [Option.map_some', Option.some.injEq] at hzoom
        have hlen : ks.length = ks'.length := by
          have := congrArg List.length hzoom
          simpa using this
        rw [hn]
        simp only [hlen, hzoom]

/-! ### Claim theorems -/

/-- C5: for every per-frame camera sample, the source's world transform
(`cameraWorld`, embedded from lines 136-148) coincides with the pipeline as
the spec words it: negate each euler component and convert degrees to
radians, build the rotation matrix with axis order Z then Y then X, compose
translation with that rotation as translation ∘ rotation, and pre-multiply by
the fixed basis-change transform. -/
theorem camera_transform_matches_spec (T : TrigOps) (pos rot : Vec3) :
    cameraWorld T pos rot = specCameraTransform T pos rot := by
  unfold specCameraTransform specRotationMatrix
  rw [specScalePosition_eq_scaleVec, specBasisChange_eq_mToZUp,
    radians_neg, radians_neg, radians_neg]
  rfl

/-- C6: every anchor's world transform is the basis-change transform applied
to the translation by the position scaled with the same `blenderScale` factor
as camera positions, followed by one additional -90 degree local-X rotation
and nothing else; and the scale factor sends source X = 1000 to target
X = `PixelsPerMM` = 2.8352. -/
theorem anchor_transform_pipeline (T : TrigOps) (p : PointLayer) :
    (mkAnchor T p).world
        = mToZUp * translation4 (scaleVec p.position) * rotX4 T (-(radians T 90)) ∧
    (mkAnchor T p).world
        = specBasisChange *
            (translation4 (specScalePosition p.position) * rotX4 T (-(radians T 90))) ∧
    scaleVec ⟨1000, 0, 0⟩ = ⟨PixelsPerMM, 0, 0⟩ := by
  refine ⟨rfl, ?_, ?_⟩
  · rw [specScalePosition_eq_scaleVec, specBasisChange_eq_mToZUp, ← mul_assoc]
    rfl
  · simp only [scaleVec, blenderScale, PixelsPerMM, Vec3.mk.injEq]
    norm_num

/-- C7: for nonzero width, `zoomToLens` equals
`36.0 * (lensZoomPixels / PixelsPerMM) / (compWidthPixels / PixelsPerMM)`,
with `PixelsPerMM` the fixed constant 2.8352. -/
theorem zoomToLens_formula (z w : ℚ) (h : w ≠ 0) :
    zoomToLens z w = 36.0 * (z / PixelsPerMM) / (w / PixelsPerMM) ∧
      PixelsPerMM = 2.8352 :=
  ⟨rfl, rfl⟩

/-- Witness for C7 at lensZoomPixels = 1, compWidthPixels = 1. -/
theorem zoomToLens_formula_witness :
    (1 : ℚ) ≠ 0 ∧
      (zoomToLens 1 1 = 36.0 * (1 / PixelsPerMM) / (1 / PixelsPerMM) ∧
        PixelsPerMM = 2.8352) :=
  ⟨by norm_num, zoomToLens_formula 1 1 (by norm_num)⟩

/-- C8: `zoomToLens` is strictly decreasing in the width for a fixed positive
zoom, strictly increasing in the zoom for a fixed positive width, and maps
the pair `(2.8352 * 36, 2.8352 * 36)` exactly to 36.0. -/
theorem zoomToLens_monotonicity :
    (∀ z w₁ w₂ : ℚ, 0 < z → 0 < w₁ → w₁ < w₂ → zoomToLens z w₂ < zoomToLens z w₁) ∧
    (∀ w z₁ z₂ : ℚ, 0 < w → z₁ < z₂ → zoomToLens z₁ w < zoomToLens z₂ w) ∧
    zoomToLens (2.8352 * 36) (2.8352 * 36) = 36.0 := by
  refine ⟨?_, ?_, ?_⟩
  · intro z w₁ w₂ hz hw₁ h12
    rw [zoomToLens_eq_div, zoomToLens_eq_div]
    exact div_lt_div_of_pos_left (by positivity) hw₁ h12
  · intro w z₁ z₂ hw h12
    rw [zoomToLens_eq_div, zoomToLens_eq_div]
    exact (div_lt_div_iff_of_pos_right hw).mpr (by linarith)
  · norm_num [zoomToLens, PixelsPerMM]

/-- C9: when the document has no camera layer the import returns Cancelled,
but the scene's resolution and frame rate have already been written by then
(settings are applied before the camera-presence check). -/
theorem cancelled_after_settings_applied (T : TrigOps) (doc : Document)
    (s0 : SceneState) (h : doc.camera = none) :
    import_hitfilm_composite T doc s0 = .ok (.cancelled, applySettings doc s0) ∧
    (applySettings doc s0).resolution_x = doc.width ∧
    (applySettings doc s0).resolution_y = doc.height ∧
    (applySettings doc s0).fps = doc.frameRate := by
  unfold import_hitfilm_composite
  rw [h]
  exact ⟨rfl, rfl, rfl, rfl⟩

/-- Witness for C9 on a camera-free document with two point layers. -/
theorem cancelled_after_settings_applied_witness :
    docNoCameraTwoPoints.camera = none ∧
      (import_hitfilm_composite T0 docNoCameraTwoPoints emptyScene
          = .ok (.cancelled, applySettings docNoCameraTwoPoints emptyScene) ∧
        (applySettings docNoCameraTwoPoints emptyScene).resolution_x
          = docNoCameraTwoPoints.width ∧
        (applySettings docNoCameraTwoPoints emptyScene).resolution_y
          = docNoCameraTwoPoints.height ∧
        (applySettings docNoCameraTwoPoints emptyScene).fps
          = docNoCameraTwoPoints.frameRate) :=
  ⟨rfl, cancelled_after_settings_applied T0 docNoCameraTwoPoints emptyScene rfl⟩

/-- C1 counterexample: a document with zero `CameraLayer` elements and two
`PointLayer` elements returns Cancelled but creates ZERO marker objects,
because the importer returns at the camera-presence check before the anchor
pass runs. -/
theorem no_camera_creates_no_markers_cex :
    docNoCameraTwoPoints.camera = none ∧
    docNoCameraTwoPoints.points.length = 2 ∧
    (import_hitfilm_composite T0 docNoCameraTwoPoints emptyScene).map
        (fun r => (r.1, r.2.anchors.length)) = .ok (.cancelled, 0) :=
  ⟨rfl, rfl, rfl⟩

/-- C1 amended: with no camera layer the import returns Cancelled having
applied only the scene settings; the anchor list is left untouched, so no
marker objects are created (anchor extraction runs only after a camera layer
has been found). -/
theorem no_camera_cancelled_without_markers (T : TrigOps) (doc : Document)
    (s0 : SceneState) (h : doc.camera = none) :
    import_hitfilm_composite T doc s0 = .ok (.cancelled, applySettings doc s0) ∧
    (applySettings doc s0).anchors = s0.anchors := by
  unfold import_hitfilm_composite
  rw [h]
  exact ⟨rfl, rfl⟩

/-- Witness for the amended C1 on the two-point camera-free document. -/
theorem no_camera_cancelled_without_markers_witness :
    docNoCameraTwoPoints.camera = none ∧
      (import_hitfilm_composite T0 docNoCameraTwoPoints emptyScene
          = .ok (.cancelled, applySettings docNoCameraTwoPoints emptyScene) ∧
        (applySettings docNoCameraTwoPoints emptyScene).anchors
          = emptyScene.anchors) :=
  ⟨rfl, no_camera_cancelled_without_markers T0 docNoCameraTwoPoints emptyScene rfl⟩

/-- C2 counterexample: a camera whose position channel is absent while the
rotation channel has one keyframe raises the length-mismatch assertion
(rotation is checked against the position-derived time keys, which are
empty), refuting that any camera with an absent channel synchronizes
successfully. -/
theorem absent_position_with_rotation_cex :
    camPosAbsentRotPresent.posAnim = none ∧
    (∃ ks, camPosAbsentRotPresent.rotAnim = some ks ∧ ks.length = 1) ∧
    extractRotations camPosAbsentRotPresent = .error .assertionError ∧
    import_hitfilm_composite T0 (mkDoc camPosAbsentRotPresent) emptyScene
      = .error .assertionError :=
  ⟨rfl, ⟨_, rfl, rfl⟩, rfl, rfl⟩

/-- Rotation extraction succeeds exactly when a present rotation channel has
as many keyframes as there are position-derived time keys. -/
theorem extractRotations_ok_iff (cam : CameraLayer) :
    (∃ rots, extractRotations cam = .ok rots) ↔
      (∀ ks, cam.rotAnim = some ks → (extractTimeKeys cam).length = ks.length) := by
  unfold extractRotations
  rcases h : cam.rotAnim with _ | ks
  · simp
  · by_cases hif : (extractTimeKeys cam).length = ks.length
    · simp [hif]
    · simp [hif]

/-- Zoom extraction succeeds exactly when a present zoom channel has as many
keyframes as there are position-derived time keys. -/
theorem extractZooms_ok_iff (cam : CameraLayer) :
    (∃ zooms, extractZooms cam = .ok zooms) ↔
      (∀ ks, cam.zoomAnim = some ks → (extractTimeKeys cam).length = ks.length) := by
  unfold extractZooms
  rcases h : cam.zoomAnim with _ | ks
  · simp
  · by_cases hif : (extractTimeKeys cam).length = ks.length
    · simp [hif]
    · simp [hif]

/-- C2 amended: an absent rotation or zoom channel yields an empty sequence
and is exempt from any length check, but each PRESENT rotation or zoom
channel must match the length of the position-derived time-key list (which is
empty when the position channel is absent): channel extraction succeeds
exactly when every present rotation/zoom channel has that length.  In
particular zoom absent with position of length N is accepted, while rotation
of length N > 0 with position absent is rejected. -/
theorem sync_absent_channel_rules (cam : CameraLayer) :
    ((cam.rotAnim = none → extractRotations cam = .ok []) ∧
     (cam.zoomAnim = none → extractZooms cam = .ok [])) ∧
    ((∃ rots zooms, extractRotations cam = .ok rots ∧ extractZooms cam = .ok zooms) ↔
      ((∀ ks, cam.rotAnim = some ks → (extractTimeKeys cam).length = ks.length) ∧
       (∀ ks, cam.zoomAnim = some ks → (extractTimeKeys cam).length = ks.length))) := by
  obtain ⟨p, r, z⟩ := cam
  refine ⟨⟨?_, ?_⟩, ?_⟩
  · intro hr
    simp only at hr
    subst hr
    rfl
  · intro hz
    simp only at hz
    subst hz
    rfl
  · constructor
    · rintro ⟨rots, zooms, hr, hz⟩
      exact ⟨(extractRotations_ok_iff ⟨p, r, z⟩).mp ⟨rots, hr⟩,
        (extractZooms_ok_iff ⟨p, r, z⟩).mp ⟨zooms, hz⟩⟩
    · rintro ⟨h₁, h₂⟩
      obtain ⟨rots, hr⟩ := (extractRotations_ok_iff ⟨p, r, z⟩).mpr h₁
      obtain ⟨zooms, hz⟩ := (extractZooms_ok_iff ⟨p, r, z⟩).mpr h₂
      exact ⟨rots, zooms, hr, hz⟩

/-- C3 counterexample: with one position keyframe, one rotation keyframe and
an absent zoom channel, the per-frame loop is entered and subscripts the
empty zoom array at frame 0, raising IndexError instead of skipping the zoom
keyframe step. -/
theorem absent_zoom_not_skipped_cex :
    camZoomAbsent.zoomAnim = none ∧
    (extractTimeKeys camZoomAbsent).length = 1 ∧
    import_hitfilm_composite T0 (mkDoc camZoomAbsent) emptyScene
      = .error .indexError :=
  ⟨rfl, rfl, rfl⟩

/-- C3 amended: the per-frame loop subscripts all three channel arrays at
every frame unconditionally.  It stays in bounds precisely when each array
covers every visited index: with all channels of length at least n it
completes, while an empty zoom channel (or an empty rotation channel) with at
least one time key raises IndexError at frame 0 rather than skipping the
corresponding keyframe step. -/
theorem frame_loop_unconditional_indexing (T : TrigOps) (width : Int) :
    (∀ (zs : List ℚ) (rs ps : List Vec3) (n : Nat) (c : CameraObject),
        n ≤ zs.length → n ≤ rs.length → n ≤ ps.length →
        ∃ c', runFrames T width zs rs ps n c = .ok c') ∧
    (∀ (rs ps : List Vec3) (n : Nat) (c : CameraObject), 0 < n →
        runFrames T width [] rs ps n c = .error .indexError) ∧
    (∀ (zs : List ℚ) (ps : List Vec3) (n : Nat) (c : CameraObject),
        0 < n → n ≤ zs.length →
        runFrames T width zs [] ps n c = .error .indexError) := by
  refine ⟨?_, ?_, ?_⟩
  · intro zs rs ps n c hz hr hp
    obtain ⟨c', hc', -, -⟩ :=
      runFramesFrom_ok T width zs rs ps n 0 c (by omega) (by omega) (by omega)
    exact ⟨c', hc'⟩
  · intro rs ps n c hn
    cases n with
    | zero => omega
    | succ k => rfl
  · intro zs ps n c hn hz
    cases n with
    | zero => omega
    | succ k =>
        cases zs with
        | nil => simp at hz
        | cons a zs' => simp [runFrames, runFramesFrom, frameStep]

/-- C4 counterexample: a camera whose only non-empty channel is zoom (length
1) has all its non-empty channels of equal length, yet the import raises the
length-mismatch assertion (zoom is compared against the empty position-derived
time keys) instead of synchronizing one frame. -/
theorem equal_nonempty_channels_rejected_cex :
    camOnlyZoom.posAnim = none ∧ camOnlyZoom.rotAnim = none ∧
    (∃ ks, camOnlyZoom.zoomAnim = some ks ∧ ks.length = 1) ∧
    import_hitfilm_composite T0 (mkDoc camOnlyZoom) emptyScene
      = .error .assertionError :=
  ⟨rfl, rfl, ⟨_, rfl, rfl⟩, rfl⟩

/-- C4 amended: with all three channels present, equal lengths N produce a
Finished import whose scene has `frame_end = N` and whose camera carries
exactly N lens keyframes and N location/rotation keyframes; a rotation or
zoom channel whose length differs from the position channel's (for example
lengths [5,5,4]) makes the import fail with the length-mismatch assertion. -/
theorem sync_equal_lengths_frame_count (T : TrigOps) (doc : Document)
    (s0 : SceneState) (cam : CameraLayer) (pks : List PosKey) (rks : List RotKey)
    (zks : List ZoomKey) (hc : doc.camera = some cam) (hp : cam.posAnim = some pks)
    (hr : cam.rotAnim = some rks) (hz : cam.zoomAnim = some zks) :
    (rks.length = pks.length → zks.length = pks.length →
      ∃ s, import_hitfilm_composite T doc s0 = .ok (.finished, s) ∧
        s.frame_end = (pks.length : Int) ∧
        ∃ c, s.camera = some c ∧ c.lensKeys.length = pks.length ∧
          c.locRotKeys.length = pks.length) ∧
    (rks.length ≠ pks.length ∨ zks.length ≠ pks.length →
      import_hitfilm_composite T doc s0 = .error .assertionError) := by
  have htk : extractTimeKeys cam = pks.map PosKey.time := by
    unfold extractTimeKeys
    rw [hp]
  have hpos : extractPositions cam = pks.map PosKey.point := by
    unfold extractPositions
    rw [hp]
  constructor
  · intro h1 h2
    have hcond1 : (extractTimeKeys cam).length = rks.length := by
      rw [htk]
      simp [h1]
    have hcond2 : (extractTimeKeys cam).length = zks.length := by
      rw [htk]
      simp [h2]
    have hrot : extractRotations cam = .ok (rks.map RotKey.euler) := by
      unfold extractRotations
      simp only [hr]
      rw [if_pos hcond1]
    have hzoom : extractZooms cam = .ok (zks.map ZoomKey.value) := by
      unfold extractZooms
      simp only [hz]
      rw [if_pos hcond2]
    obtain ⟨c', hc', hl, hk⟩ :=
      runFramesFrom_ok T doc.width (zks.map ZoomKey.value) (rks.map RotKey.euler)
        (pks.map PosKey.point) (extractTimeKeys cam).length 0 initCamera
        (by simp [htk, h2]) (by simp [htk, h1]) (by simp [htk])
    have hrun : runFrames T doc.width (zks.map ZoomKey.value) (rks.map RotKey.euler)
        (pks.map PosKey.point) (extractTimeKeys cam).length initCamera = .ok c' := by
      unfold runFrames
      exact hc'
    have himp : import_hitfilm_composite T doc s0 =
        .ok (.finished,
          { resolution_x := doc.width, resolution_y := doc.height,
            fps := doc.frameRate,
            frame_end := ((extractTimeKeys cam).length : Int), frame_current := 0,
            camera := some c',
            anchors := s0.anchors ++ importAnchors T doc.points }) := by
      unfold import_hitfilm_composite applySettings
      rw [hc]
      simp only [hpos, hrot, hzoom, hrun]
    refine ⟨_, himp, ?_, ?_⟩
    · simp [htk]
    · refine ⟨c', rfl, ?_, ?_⟩
      · simpa [initCamera, htk] using hl
      · simpa [initCamera, htk] using hk
  · intro hne
    by_cases hA : rks.length = pks.length
    · have h2 : zks.length ≠ pks.length := by tauto
      have hcond1 : (extractTimeKeys cam).length = rks.length := by
        rw [htk]
        simp [hA]
      have hcond2 : ¬(extractTimeKeys cam).length = zks.length := by
        rw [htk]
        simp only [List.length_map]
        omega
      have hrot : extractRotations cam = .ok (rks.map RotKey.euler) := by
        unfold extractRotations
        simp only [hr]
        rw [if_pos hcond1]
      have hzoom : extractZooms cam = .error .assertionError := by
        unfold extractZooms
        simp only [hz]
        rw [if_neg hcond2]
      unfold import_hitfilm_composite
      rw [hc]
      simp only [hrot, hzoom]
    · have hcond1 : ¬(extractTimeKeys cam).length = rks.length := by
        rw [htk]
        simp only [List.length_map]
        omega
      have hrot : extractRotations cam = .error .assertionError := by
        unfold extractRotations
        simp only [hr]
        rw [if_neg hcond1]
      unfold import_hitfilm_composite
      rw [hc]
      simp only [hrot]

/-- Witness for the amended C4 on channels of lengths [5, 5, 4]: the
mismatched-length branch yields the assertion error. -/
theorem sync_equal_lengths_frame_count_witness :
    ((mkDoc cam554).camera = some cam554 ∧ cam554.posAnim = some pks5 ∧
      cam554.rotAnim = some rks5 ∧ cam554.zoomAnim = some zks4) ∧
    ((rks5.length = pks5.length → zks4.length = pks5.length →
        ∃ s, import_hitfilm_composite T0 (mkDoc cam554) emptyScene
            = .ok (.finished, s) ∧
          s.frame_end = (pks5.length : Int) ∧
          ∃ c, s.camera = some c ∧ c.lensKeys.length = pks5.length ∧
            c.locRotKeys.length = pks5.length) ∧
      (rks5.length ≠ pks5.length ∨ zks4.length ≠ pks5.length →
        import_hitfilm_composite T0 (mkDoc cam554) emptyScene
          = .error .assertionError)) :=
  ⟨⟨rfl, rfl, rfl, rfl⟩,
    sync_equal_lengths_frame_count T0 (mkDoc cam554) emptyScene cam554 pks5 rks5
      zks4 rfl rfl rfl rfl⟩

/-- C10: the values of the `Time` attributes never influence the produced
scene: two documents that differ only in those attribute values import
identically (only the COUNT of position time keys is ever used; keyframes are
written at indices 0..N-1 given by list position). -/
theorem time_values_noninterference (T : TrigOps) (d₁ d₂ : Document)
    (s0 : SceneState) (h : TimesOnlyDiffer d₁ d₂) :
    import_hitfilm_composite T d₁ s0 = import_hitfilm_composite T d₂ s0 := by
  obtain ⟨hw, hh, hf, hp, hcam⟩ := h
  cases h₁ : d₁.camera with
  | none =>
      cases h₂ : d₂.camera with
      | none =>
          unfold import_hitfilm_composite applySettings
          rw [h₁, h₂, hw, hh, hf]
      | some c₂ =>
          rw [h₁, h₂] at hcam
          exact hcam.elim
  | some c₁ =>
      cases h₂ : d₂.camera with
      | none =>
          rw [h₁, h₂] at hcam
          exact hcam.elim
      | some c₂ =>
          rw [h₁, h₂] at hcam
          obtain ⟨hpos, hrot, hzoom⟩ := hcam
          have e1 := extractPositions_congr c₁ c₂ hpos
          have e2 := extractTimeKeys_length_congr c₁ c₂ hpos
          have e3 := extractRotations_congr c₁ c₂ hpos hrot
          have e4 := extractZooms_congr c₁ c₂ hpos hzoom
          unfold import_hitfilm_composite applySettings
          rw [h₁, h₂, hw, hh, hf, hp]
          simp only [e1, e2, e3, e4]

/-- Witness for C10: the same channel data under two different sets of `Time`
attribute strings import to the same result. -/
theorem time_values_noninterference_witness :
    TimesOnlyDiffer (mkDoc cam222) (mkDoc cam222retimed) ∧
      import_hitfilm_composite T0 (mkDoc cam222) emptyScene
        = import_hitfilm_composite T0 (mkDoc cam222retimed) emptyScene :=
  ⟨⟨rfl, rfl, rfl, rfl, rfl, rfl, rfl⟩,
    time_values_noninterference T0 (mkDoc cam222) (mkDoc cam222retimed) emptyScene
      ⟨rfl, rfl, rfl, rfl, rfl, rfl, rfl⟩⟩
